import Mathlib

/-
Shallow embedding of the Nagios event handler that evacuates VMs from a
failed compute node (eventhandlers/nova_evacuate_vms.py).

Modelling decisions, each tied to the source:
- Command-line arguments become the `Args` structure; the fields keep the
  source names (`compute_host`, `state`, `state_type`, `unreachable_is_down`,
  `wait_timeout`).  `wait_timeout` is modelled as a natural number of seconds
  (the source default is the integer 10).
- The external OpenStack API is an oracle `Env`: each network call the script
  makes is a field returning `Except String _` (`.error e` models a raised
  exception whose text is `e`).  `fetchStatus vm t` is the result of
  `nova.servers.list(search_opts=\x7b'name': vm\x7d)` at time `t` after the
  evacuate call: a list of the matching server statuses (the empty list models
  the query returning no record).  `pick i` is the randomness oracle backing
  `random.choice` at loop iteration `i`.
- Time inside the wait loop is discretised: the loop body sleeps 3 seconds
  between status fetches and the other work is counted as instantaneous, so
  the fetches and the `while datetime.now() < start + timedelta(seconds=
  wait_timeout)` checks happen at t = 0, 3, 6, ...  The loop body therefore
  runs for t = 3*k with 3*k < wait_timeout, i.e. for k < (wait_timeout+2)/3,
  and the last fetch (the one in hand when the time check fails) happens at
  t = 3*((wait_timeout+2)/3).  `pollGrid` is structural recursion on the
  number of remaining in-loop checks.
- `sys.exit(-1)` after an error log becomes `RunResult.fatal msg`;
  `sys.exit(0)` at the debounce gate becomes `RunResult.gateSkip`; an
  uncaught exception (`random.choice` on an empty target list raises
  IndexError outside any try block) becomes `RunResult.crash`; a completed
  run becomes `RunResult.report successes failures`, the two lists the final
  syslog line reports.
-/

namespace NovaEvacuate

/-- State ID values for HOST states in nagios, as defined at the top of the
script. -/
def UP : Nat := 0

/-- Nagios DOWN host state ID. -/
def DOWN : Nat := 1

/-- Nagios UNREACHABLE host state ID. -/
def UNREACHABLE : Nat := 2

/-- The command-line arguments the script consumes (authentication details
elided: authentication is the `Env.authResult` oracle). -/
structure Args where
  compute_host : String
  state : String
  state_type : String
  unreachable_is_down : Bool
  wait_timeout : Nat
deriving Repr, DecidableEq

/-- The `down_states` list: `[DOWN]`, with `UNREACHABLE` appended when
`--unreachable-is-down` is set. -/
def down_states (unreachable_is_down : Bool) : List Nat :=
  if unreachable_is_down then [DOWN, UNREACHABLE] else [DOWN]

/-- Python equality between a `str` value and an `int` value.  In Python 2
(and 3), `==` between a string and an integer is always `False`; the script
compares `args.state` (a string, `type=str` in argparse) against the integer
constants in `down_states`. -/
def pyEqStrInt (_s : String) (_n : Nat) : Bool := false

/-- Python membership test `s in l` for a string `s` and a list of integers
`l`: `any` of the elementwise equalities. -/
def pyMemStrIntList (s : String) (l : List Nat) : Bool :=
  l.any (pyEqStrInt s)

/-- The debounce gate: the script logs and exits 0 (doing nothing) exactly
when `args.state_type != 'HARD' and args.state not in down_states`. -/
def gateSkips (a : Args) : Bool :=
  (a.state_type != "HARD") && !(pyMemStrIntList a.state (down_states a.unreachable_is_down))

/-- Modelled from the spec (section 4.1): the intended gate.  The down-state
set is DOWN plus UNREACHABLE iff the policy flag is set, and evacuation
proceeds only for a HARD state type with a state in that set.  Kept solely to
compare with the gate the code implements. -/
def shouldEvacuateSpec (state state_type : String) (treatUnreachableAsDown : Bool) : Bool :=
  (state_type == "HARD") &&
    ((state == "DOWN") || (treatUnreachableAsDown && (state == "UNREACHABLE")))

/-- One record of `nova.services.list`: the fields the script reads. -/
structure ServiceRecord where
  binary : String
  host : String
  state : String
deriving Repr, DecidableEq

/-- The external world: one field per kind of API call the script makes. -/
structure Env where
  authResult : Except String Unit
  servicesForHost : Except String (List ServiceRecord)
  vmsOnHost : Except String (List String)
  allServices : Except String (List ServiceRecord)
  evacResult : String → Except String Unit
  fetchStatus : String → Nat → Except String (List String)
  pick : Nat → Nat

/-- Message of the IndexError raised by indexing an empty Python list. -/
def pyIndexErrorMsg : String := "list index out of range"

/-- The failure reason the script records when the post-loop status check
still does not read ACTIVE. -/
def manualMigrationMsg : String :=
  "VM is in ERROR or UNKNOWN status, needs manual migration"

/-- The failure reason the spec (sections 4.4 and 8) gives for the timeout
case.  Kept solely to compare with the string the code records. -/
def specTimeoutMsg : String :=
  "did not reach ACTIVE within timeout, may need manual migration"

/-- Fatal log message for a keystone authentication failure. -/
def authFailMsg (e : String) : String :=
  "Failed to authenticate to keystone: " ++ e

/-- Fatal log message when listing services for the failed host raises. -/
def listServicesFailMsg (host e : String) : String :=
  "Failed to list services nova-compute for host " ++ host ++ " :: " ++ e

/-- Fatal log message when the per-host service query does not return exactly
one record. -/
def ambiguousSvcMsg (host : String) : String :=
  "Got more than one nova-compute on host " ++ host

/-- Fatal log message when the single service record is not in state down. -/
def stillUpMsg (host : String) : String :=
  "Nagios says down, but nova-compute is still up in " ++ host ++ " when querying nova"

/-- Fatal log message when listing the VMs of the failed host raises. -/
def listVMsFailMsg (host e : String) : String :=
  "Failed to list VMs for host " ++ host ++ " :: " ++ e

/-- Fatal log message when listing all services to build the target pool
raises. -/
def targetsFailMsg (e : String) : String :=
  "Failed while filtering target hosts from service list :: " ++ e

/-- How the wait-for-ACTIVE loop ends for one VM: `found` when an in-loop
check saw status ACTIVE (success recorded, `break`), `exn e` when a fetch or
the indexing of an empty fetch result raised inside the loop, and
`timedOut h` when the time check failed, `h` being the head status of the
fetch result then in hand (`none` models an empty result, whose indexing in
the post-loop check raises). -/
inductive PollEnd where
  | found
  | exn (msg : String)
  | timedOut (headStatus : Option String)
deriving Repr, DecidableEq

/-- The wait loop, by structural recursion on the number `n` of remaining
in-loop time checks; `k` is the index of the current fetch, made at time
`3*k`.  At `n = 0` the time check fails and the loop exits holding the fetch
made at `3*k`. -/
def pollGrid (fetch : Nat → Except String (List String)) : Nat → Nat → PollEnd
  | 0, k =>
    match fetch (3 * k) with
    | .error e => .exn e
    | .ok cvm => .timedOut cvm.head?
  | n + 1, k =>
    match fetch (3 * k) with
    | .error e => .exn e
    | .ok cvm =>
      match cvm.head? with
      | none => .exn pyIndexErrorMsg
      | some s => if s = "ACTIVE" then .found else pollGrid fetch n (k + 1)

/-- The wait loop for a given `wait_timeout`: in-loop checks happen at times
`3*k < timeout`, i.e. for `k < (timeout+2)/3`. -/
def pollFrom (fetch : Nat → Except String (List String)) (timeout : Nat) : PollEnd :=
  pollGrid fetch ((timeout + 2) / 3) 0

/-- One iteration of the per-VM loop body after the target was chosen: the
`try` block issues the evacuate call, runs the wait loop, and runs the
post-loop status check; the `except` clause converts any raised error into a
failure entry.  Returns the pair (successes appended, failures appended) for
this VM. -/
def evacuateOne (evacResult : Except String Unit)
    (fetch : Nat → Except String (List String)) (timeout : Nat)
    (name target : String) :
    List (String × String) × List (String × String) :=
  match evacResult with
  | .error e => ([], [(name, e)])
  | .ok _ =>
    match pollFrom fetch timeout with
    | .found => ([(name, target)], [])
    | .exn e => ([], [(name, e)])
    | .timedOut none => ([], [(name, pyIndexErrorMsg)])
    | .timedOut (some s) =>
      if s = "ACTIVE" then ([], []) else ([], [(name, manualMigrationMsg)])

/-- The target pool: hosts of all `nova-compute` services other than the
failed host. -/
def buildTargets (svcs : List ServiceRecord) (excl : String) : List String :=
  (svcs.filter (fun s => s.binary == "nova-compute" && s.host != excl)).map
    (fun s => s.host)

/-- Result of the per-VM loop: whether it crashed (uncaught IndexError from
`random.choice` on an empty target list), the accumulated success and failure
entries, and the evacuate calls issued, in order. -/
structure LoopOut where
  crashed : Bool
  successes : List (String × String)
  failures : List (String × String)
  evacCalls : List (String × String)
deriving Repr, DecidableEq

/-- The per-VM loop.  For each VM, `random.choice(targets)` runs outside the
`try` block: on an empty pool it raises IndexError and the process dies; on a
non-empty pool it picks index `pick i % targets.length`. -/
def loopVMs (env : Env) (timeout : Nat) (targets : List String) :
    List String → Nat → LoopOut
  | [], _ => ⟨false, [], [], []⟩
  | vm :: rest, i =>
    if h : targets.length = 0 then ⟨true, [], [], []⟩
    else
      let target := targets.get ⟨env.pick i % targets.length,
        Nat.mod_lt _ (Nat.pos_of_ne_zero h)⟩
      let r := evacuateOne (env.evacResult vm) (env.fetchStatus vm) timeout vm target
      let out := loopVMs env timeout targets rest (i + 1)
      ⟨out.crashed, r.1 ++ out.successes, r.2 ++ out.failures,
        (vm, target) :: out.evacCalls⟩

/-- How a whole invocation of the script ends. -/
inductive RunResult where
  | gateSkip
  | fatal (msg : String)
  | crash
  | report (successes failures : List (String × String))
deriving Repr, DecidableEq

/-- A whole invocation: how it ended, plus the evacuate calls it issued. -/
structure RunOutput where
  result : RunResult
  evacCalls : List (String × String)
deriving Repr, DecidableEq

/-- The whole script, top to bottom: debounce gate, keystone authentication,
nova-compute service check for the failed host (`len != 1`, then
`pop().state != 'down'`), listing the VMs of the host, building the target
pool, and the per-VM evacuation loop with the final report. -/
def run (a : Args) (env : Env) : RunOutput :=
  if gateSkips a then ⟨.gateSkip, []⟩
  else
    match env.authResult with
    | .error e => ⟨.fatal (authFailMsg e), []⟩
    | .ok _ =>
      match env.servicesForHost with
      | .error e => ⟨.fatal (listServicesFailMsg a.compute_host e), []⟩
      | .ok svc =>
        if svc.length != 1 then ⟨.fatal (ambiguousSvcMsg a.compute_host), []⟩
        else if (svc.getLast?.elim "" ServiceRecord.state) != "down" then
          ⟨.fatal (stillUpMsg a.compute_host), []⟩
        else
          match env.vmsOnHost with
          | .error e => ⟨.fatal (listVMsFailMsg a.compute_host e), []⟩
          | .ok vms =>
            match env.allServices with
            | .error e => ⟨.fatal (targetsFailMsg e), []⟩
            | .ok svcs =>
              let targets := buildTargets svcs a.compute_host
              let out := loopVMs env a.wait_timeout targets vms 0
              if out.crashed then ⟨.crash, out.evacCalls⟩
              else ⟨.report out.successes out.failures, out.evacCalls⟩

end NovaEvacuate

namespace NovaEvacuate

/-- If every fetch up to index `k` returns a non-empty list and the fetch at
`k` reads ACTIVE, with `k` still inside the loop bound, the loop ends in
`found`. -/
theorem pollGrid_found (fetch : Nat → Except String (List String)) :
    ∀ (k n k₀ : Nat), k < n →
      (∀ j, j < k → ∃ s rest, fetch (3 * (k₀ + j)) = .ok (s :: rest)) →
      (∃ rest, fetch (3 * (k₀ + k)) = .ok ("ACTIVE" :: rest)) →
      pollGrid fetch n k₀ = .found := by
  intro k
  induction k with
  | zero =>
    intro n k₀ hn _ hact
    obtain ⟨rest, hr⟩ := hact
    rw [Nat.add_zero] at hr
    match n, hn with
    | m + 1, _ => simp [pollGrid, hr]
  | succ k ih =>
    intro n k₀ hn hpre hact
    match n, hn with
    | m + 1, hn =>
      obtain ⟨s, rest, h0⟩ := hpre 0 (Nat.succ_pos k)
      rw [Nat.add_zero] at h0
      by_cases hs : s = "ACTIVE"
      · simp [pollGrid, h0, hs]
      · have hstep : pollGrid fetch (m + 1) k₀ = pollGrid fetch m (k₀ + 1) := by
          simp [pollGrid, h0, hs]
        rw [hstep]
        refine ih m (k₀ + 1) (Nat.lt_of_succ_lt_succ hn) ?_ ?_
        · intro j hj
          have h := hpre (j + 1) (Nat.succ_lt_succ hj)
          rwa [show k₀ + (j + 1) = k₀ + 1 + j by omega] at h
        · obtain ⟨rest1, h1⟩ := hact
          exact ⟨rest1, by rwa [show k₀ + (k + 1) = k₀ + 1 + k by omega] at h1⟩

/-- If every fetch from `k₀` through the final one returns a non-empty list
whose head is not ACTIVE, the loop times out holding that non-ACTIVE head. -/
theorem pollGrid_notActive (fetch : Nat → Except String (List String)) :
    ∀ (n k₀ : Nat),
      (∀ j, j ≤ n → ∃ s rest, fetch (3 * (k₀ + j)) = .ok (s :: rest) ∧ s ≠ "ACTIVE") →
      ∃ s, pollGrid fetch n k₀ = .timedOut (some s) ∧ s ≠ "ACTIVE" := by
  intro n
  induction n with
  | zero =>
    intro k₀ h
    obtain ⟨s, rest, hr, hs⟩ := h 0 (Nat.le_refl 0)
    rw [Nat.add_zero] at hr
    exact ⟨s, by simp [pollGrid, hr], hs⟩
  | succ n ih =>
    intro k₀ h
    obtain ⟨s, rest, hr, hs⟩ := h 0 (Nat.zero_le _)
    rw [Nat.add_zero] at hr
    have hstep : pollGrid fetch (n + 1) k₀ = pollGrid fetch n (k₀ + 1) := by
      simp [pollGrid, hr, hs]
    rw [hstep]
    refine ih (k₀ + 1) ?_
    intro j hj
    have hx := h (j + 1) (Nat.succ_le_succ hj)
    rwa [show k₀ + (j + 1) = k₀ + 1 + j by omega] at hx

/-- If the fetches before index `k` return non-ACTIVE non-empty lists and the
fetch at `k` raises, the loop ends with that exception (`k` may also be the
final fetch). -/
theorem pollGrid_exn (fetch : Nat → Except String (List String)) :
    ∀ (k n k₀ : Nat) (e : String), k ≤ n →
      (∀ j, j < k → ∃ s rest, fetch (3 * (k₀ + j)) = .ok (s :: rest) ∧ s ≠ "ACTIVE") →
      fetch (3 * (k₀ + k)) = .error e →
      pollGrid fetch n k₀ = .exn e := by
  intro k
  induction k with
  | zero =>
    intro n k₀ e _ _ hr
    rw [Nat.add_zero] at hr
    match n with
    | 0 => simp [pollGrid, hr]
    | m + 1 => simp [pollGrid, hr]
  | succ k ih =>
    intro n k₀ e hn hpre hr
    match n, hn with
    | m + 1, hn =>
      obtain ⟨s, rest, h0, hs⟩ := hpre 0 (Nat.succ_pos k)
      rw [Nat.add_zero] at h0
      have hstep : pollGrid fetch (m + 1) k₀ = pollGrid fetch m (k₀ + 1) := by
        simp [pollGrid, h0, hs]
      rw [hstep]
      refine ih m (k₀ + 1) e (Nat.le_of_succ_le_succ hn) ?_ ?_
      · intro j hj
        have hx := hpre (j + 1) (Nat.succ_lt_succ hj)
        rwa [show k₀ + (j + 1) = k₀ + 1 + j by omega] at hx
      · rwa [show k₀ + (k + 1) = k₀ + 1 + k by omega] at hr

/-- If the fetches before index `k` return non-ACTIVE non-empty lists and the
fetch at `k` returns the empty list, the loop ends either with the in-loop
IndexError or timed out holding no record. -/
theorem pollGrid_empty (fetch : Nat → Except String (List String)) :
    ∀ (k n k₀ : Nat), k ≤ n →
      (∀ j, j < k → ∃ s rest, fetch (3 * (k₀ + j)) = .ok (s :: rest) ∧ s ≠ "ACTIVE") →
      fetch (3 * (k₀ + k)) = .ok [] →
      pollGrid fetch n k₀ = .exn pyIndexErrorMsg ∨
        pollGrid fetch n k₀ = .timedOut none := by
  intro k
  induction k with
  | zero =>
    intro n k₀ _ _ hr
    rw [Nat.add_zero] at hr
    match n with
    | 0 => exact Or.inr (by simp [pollGrid, hr])
    | m + 1 => exact Or.inl (by simp [pollGrid, hr])
  | succ k ih =>
    intro n k₀ hn hpre hr
    match n, hn with
    | m + 1, hn =>
      obtain ⟨s, rest, h0, hs⟩ := hpre 0 (Nat.succ_pos k)
      rw [Nat.add_zero] at h0
      have hstep : pollGrid fetch (m + 1) k₀ = pollGrid fetch m (k₀ + 1) := by
        simp [pollGrid, h0, hs]
      rw [hstep]
      refine ih m (k₀ + 1) (Nat.le_of_succ_le_succ hn) ?_ ?_
      · intro j hj
        have hx := hpre (j + 1) (Nat.succ_lt_succ hj)
        rwa [show k₀ + (j + 1) = k₀ + 1 + j by omega] at hx
      · rwa [show k₀ + (k + 1) = k₀ + 1 + k by omega] at hr

end NovaEvacuate

namespace NovaEvacuate

/-- Every evacuate call the per-VM loop issues has its target drawn from the
target list. -/
theorem loopVMs_calls_mem (env : Env) (timeout : Nat) (targets : List String) :
    ∀ (vms : List String) (i : Nat) (c : String × String),
      c ∈ (loopVMs env timeout targets vms i).evacCalls → c.2 ∈ targets := by
  intro vms
  induction vms with
  | nil => intro i c hc; simp [loopVMs] at hc
  | cons vm rest ih =>
    intro i c hc
    by_cases h : targets.length = 0
    · simp [loopVMs, h] at hc
    · simp only [loopVMs, dif_neg h] at hc
      rcases List.mem_cons.mp hc with hhead | htail
      · rw [hhead]
        exact List.get_mem _ _ _
      · exact ih (i + 1) c htail

/-- With a non-empty target list the per-VM loop never crashes and issues
exactly one evacuate call per listed VM. -/
theorem loopVMs_no_crash (env : Env) (timeout : Nat) (targets : List String)
    (h : targets ≠ []) :
    ∀ (vms : List String) (i : Nat),
      (loopVMs env timeout targets vms i).crashed = false ∧
        (loopVMs env timeout targets vms i).evacCalls.length = vms.length := by
  have hlen : targets.length ≠ 0 := fun h0 => h (List.length_eq_zero.mp h0)
  intro vms
  induction vms with
  | nil => intro i; simp [loopVMs]
  | cons vm rest ih =>
    intro i
    simp only [loopVMs, dif_neg hlen]
    exact ⟨(ih (i + 1)).1, by simp [(ih (i + 1)).2]⟩

/-- On an empty target list the loop is a no-op for no VMs and an immediate
uncaught IndexError otherwise; either way nothing is called or recorded. -/
theorem loopVMs_nil_targets (env : Env) (timeout : Nat) :
    ∀ (vms : List String) (i : Nat),
      loopVMs env timeout [] vms i =
        ⟨decide (vms ≠ []), [], [], []⟩ := by
  intro vms i
  cases vms with
  | nil => simp [loopVMs]
  | cons vm rest => simp [loopVMs]

/-- Members of the target pool differ from the excluded host. -/
theorem mem_buildTargets_ne (svcs : List ServiceRecord) (excl t : String)
    (ht : t ∈ buildTargets svcs excl) : t ≠ excl := by
  simp only [buildTargets, List.mem_map, List.mem_filter] at ht
  obtain ⟨s, ⟨_, hcond⟩, rfl⟩ := ht
  have := (Bool.and_eq_true _ _).mp hcond
  simpa [bne_iff_ne] using this.2

/-- Any evacuate call a full run issues draws its target from the pool built
from the service list, excluding the failed host. -/
theorem run_calls_spec (a : Args) (env : Env) (c : String × String)
    (hc : c ∈ (run a env).evacCalls) :
    ∃ svcs, env.allServices = .ok svcs ∧
      c.2 ∈ buildTargets svcs a.compute_host := by
  unfold run at hc
  split at hc
  · simp at hc
  · split at hc
    · simp at hc
    · split at hc
      · simp at hc
      · split at hc
        · simp at hc
        · split at hc
          · simp at hc
          · split at hc
            · simp at hc
            · split at hc
              · simp at hc
              · rename_i svcs heq
                dsimp only at hc
                split at hc <;>
                  exact ⟨svcs, heq, loopVMs_calls_mem env a.wait_timeout _ _ _ c hc⟩

end NovaEvacuate

namespace NovaEvacuate

/-- A demo environment: one down nova-compute record on h1, one VM named
vm-a, one surviving compute host h2, every status query reading ACTIVE, the
randomness oracle always picking index 0. -/
def demoEnv : Env where
  authResult := .ok ()
  servicesForHost := .ok [⟨"nova-compute", "h1", "down"⟩]
  vmsOnHost := .ok ["vm-a"]
  allServices := .ok [⟨"nova-compute", "h1", "down"⟩, ⟨"nova-compute", "h2", "up"⟩]
  evacResult := fun _ => .ok ()
  fetchStatus := fun _ _ => .ok ["ACTIVE"]
  pick := fun _ => 0

/-- Like `demoEnv`, but the VM status reads BUILD at the polls inside the
10-second window (t = 0, 3, 6, 9) and ACTIVE from t = 12 on, so the first
ACTIVE reading is the fetch in hand when the time check fails. -/
def envC2 : Env :=
  { demoEnv with fetchStatus := fun _ t => .ok [if 12 ≤ t then "ACTIVE" else "BUILD"] }

/-- Like `demoEnv`, but h1 is the only compute service (empty target pool)
and no VM is listed on it. -/
def envC3no : Env :=
  { demoEnv with vmsOnHost := .ok [],
                 allServices := .ok [⟨"nova-compute", "h1", "down"⟩] }

/-- Like `demoEnv`, but h1 is the only compute service (empty target pool)
while one VM is listed on it. -/
def envC3one : Env :=
  { demoEnv with allServices := .ok [⟨"nova-compute", "h1", "down"⟩] }

/-- Like `demoEnv`, but the per-host service query returns two records. -/
def envC5amb : Env :=
  { demoEnv with
      servicesForHost := .ok [⟨"nova-compute", "h1", "down"⟩, ⟨"nova-compute", "h1", "down"⟩] }

/-- Like `demoEnv`, but the single service record still reports state up. -/
def envC5up : Env :=
  { demoEnv with servicesForHost := .ok [⟨"nova-compute", "h1", "up"⟩] }

/-- C10: whenever the probe state type equals HARD, the run proceeds past the
debounce gate for every probe state string and every setting of the
unreachable-is-down flag, because the membership test of the state string in
the list of integer state constants never holds. -/
theorem c10_hard_state_type_always_proceeds :
    (∀ (s : String) (l : List Nat), pyMemStrIntList s l = false) ∧
    (∀ (host s : String) (flag : Bool) (w : Nat),
      gateSkips ⟨host, s, "HARD", flag, w⟩ = false) := by
  constructor
  · intro s l
    simp [pyMemStrIntList, pyEqStrInt]
  · intro host s flag w
    simp [gateSkips]

/-- C1: the claim that an alarm (UP, HARD) is gated out fails on the code.
With state UP and state type HARD the gate condition
`state_type != HARD and state not in down_states` is false, so the script
proceeds to the full evacuation path: here it authenticates, queries nova,
issues an evacuate call for the listed VM and reports a success, where the
claim demands a false gate, zero compute-API calls and a no-op exit. -/
theorem c1_up_hard_not_debounced :
    gateSkips ⟨"h1", "UP", "HARD", false, 10⟩ = false ∧
    shouldEvacuateSpec "UP" "HARD" false = false ∧
    run ⟨"h1", "UP", "HARD", false, 10⟩ demoEnv =
      ⟨.report [("vm-a", "h2")] [], [("vm-a", "h2")]⟩ :=
  ⟨rfl, rfl, rfl⟩

/-- C4: the claim that for (UNREACHABLE, HARD) the gate decision equals the
unreachable-is-down flag fails on the code: the gate lets the run proceed for
both settings of the flag, and with the flag false the run still issues an
evacuate call, where the spec intends no evacuation. -/
theorem c4_unreachable_hard_flag_ignored :
    gateSkips ⟨"h1", "UNREACHABLE", "HARD", false, 10⟩ = false ∧
    gateSkips ⟨"h1", "UNREACHABLE", "HARD", true, 10⟩ = false ∧
    shouldEvacuateSpec "UNREACHABLE" "HARD" false = false ∧
    run ⟨"h1", "UNREACHABLE", "HARD", false, 10⟩ demoEnv =
      ⟨.report [("vm-a", "h2")] [], [("vm-a", "h2")]⟩ :=
  ⟨rfl, rfl, rfl, rfl⟩

/-- C2: the exactly-one-outcome claim fails on the code.  When the status
first reads ACTIVE at the fetch in hand as the wait window closes (BUILD at
t = 0, 3, 6, 9; ACTIVE at t = 12 with wait_timeout 10), the per-VM body
records neither a success nor a failure, and the full run evacuates the one
listed VM yet reports zero outcomes for it. -/
theorem c2_last_poll_active_drops_instance :
    evacuateOne (.ok ()) (fun t => .ok [if 12 ≤ t then "ACTIVE" else "BUILD"])
        10 "vm-a" "h2" = ([], []) ∧
    run ⟨"h1", "DOWN", "HARD", false, 10⟩ envC2 =
      ⟨.report [] [], [("vm-a", "h2")]⟩ :=
  ⟨rfl, rfl⟩

/-- C6: the failed host never appears as its own evacuation target: the pool
never contains the excluded host, and every target of every evacuate call a
run issues is drawn from the pool built from the service list minus the
failed host. -/
theorem c6_failed_host_never_target :
    (∀ (svcs : List ServiceRecord) (h : String), h ∉ buildTargets svcs h) ∧
    (∀ (a : Args) (env : Env) (c : String × String),
      c ∈ (run a env).evacCalls →
      ∃ svcs, env.allServices = .ok svcs ∧
        c.2 ∈ buildTargets svcs a.compute_host ∧ c.2 ≠ a.compute_host) := by
  constructor
  · intro svcs h hmem
    exact mem_buildTargets_ne svcs h h hmem rfl
  · intro a env c hc
    obtain ⟨svcs, heq, hmem⟩ := run_calls_spec a env c hc
    exact ⟨svcs, heq, hmem, mem_buildTargets_ne svcs a.compute_host c.2 hmem⟩

/-- C6 witness: instantiation at the demo run, whose single evacuate call
targets h2, a pool member different from the failed host h1. -/
theorem c6_witness :
    "h1" ∉ buildTargets [⟨"nova-compute", "h1", "down"⟩] "h1" ∧
    ∃ svcs, demoEnv.allServices = .ok svcs ∧
      (("vm-a", "h2") : String × String).2 ∈ buildTargets svcs "h1" ∧
      (("vm-a", "h2") : String × String).2 ≠ "h1" :=
  ⟨c6_failed_host_never_target.1 _ _,
   c6_failed_host_never_target.2 ⟨"h1", "DOWN", "HARD", false, 10⟩ demoEnv
     ("vm-a", "h2") (by decide)⟩

end NovaEvacuate

namespace NovaEvacuate

/-- C5: after the gate and a successful authentication, a per-host service
query returning a record count other than exactly one aborts the run with the
ambiguous-record fatal error and no evacuate call, and a single record whose
state is not down aborts it with the still-up fatal error and no evacuate
call. -/
theorem c5_service_check_gates (a : Args) (env : Env) (svc : List ServiceRecord)
    (hgate : gateSkips a = false) (hauth : env.authResult = .ok ())
    (hsvc : env.servicesForHost = .ok svc) :
    (svc.length ≠ 1 →
      run a env = ⟨.fatal (ambiguousSvcMsg a.compute_host), []⟩) ∧
    (∀ r, svc = [r] → r.state ≠ "down" →
      run a env = ⟨.fatal (stillUpMsg a.compute_host), []⟩) := by
  constructor
  · intro hlen
    simp [run, hgate, hauth, hsvc, bne_iff_ne, hlen]
  · rintro r rfl hstate
    simp [run, hgate, hauth, hsvc, bne_iff_ne, Option.elim, hstate]

/-- C5 witness: a two-record query aborts with the ambiguous-record error,
and a single up record aborts with the still-up error; neither run issues an
evacuate call. -/
theorem c5_witness :
    run ⟨"h1", "DOWN", "HARD", false, 10⟩ envC5amb =
      ⟨.fatal (ambiguousSvcMsg "h1"), []⟩ ∧
    run ⟨"h1", "DOWN", "HARD", false, 10⟩ envC5up =
      ⟨.fatal (stillUpMsg "h1"), []⟩ :=
  ⟨(c5_service_check_gates ⟨"h1", "DOWN", "HARD", false, 10⟩ envC5amb
      [⟨"nova-compute", "h1", "down"⟩, ⟨"nova-compute", "h1", "down"⟩]
      rfl rfl rfl).1 (by decide),
   (c5_service_check_gates ⟨"h1", "DOWN", "HARD", false, 10⟩ envC5up
      [⟨"nova-compute", "h1", "up"⟩] rfl rfl rfl).2
      ⟨"nova-compute", "h1", "up"⟩ rfl (by decide)⟩

/-- C3 counterexample: with the target pool empty (the failed host h1 is the
only compute service) and no VM listed on the host, the run does not fail
fast with a fatal error at all: it completes normally with an empty report
and exit 0. -/
theorem c3_counterexample :
    buildTargets [⟨"nova-compute", "h1", "down"⟩] "h1" = [] ∧
    run ⟨"h1", "DOWN", "HARD", false, 10⟩ envC3no = ⟨.report [] [], []⟩ ∧
    ∀ msg, (run ⟨"h1", "DOWN", "HARD", false, 10⟩ envC3no).result ≠ .fatal msg := by
  refine ⟨rfl, rfl, ?_⟩
  intro msg h
  rw [show (run ⟨"h1", "DOWN", "HARD", false, 10⟩ envC3no).result =
    .report [] [] from rfl] at h
  exact RunResult.noConfusion h

/-- C3 amended: the target pool is computed once, with no up-front emptiness
check.  When the pool is empty, no evacuate call is issued and no outcome is
recorded for any instance, but not through a deliberate fatal error: with no
listed instance the run completes normally with an empty report, and with at
least one listed instance it dies of the uncaught IndexError raised by
random.choice on the empty pool at the first target selection. -/
theorem c3_empty_pool_behavior (a : Args) (env : Env) (r : ServiceRecord)
    (vms : List String) (svcs : List ServiceRecord)
    (hgate : gateSkips a = false)
    (hauth : env.authResult = .ok ())
    (hsvc : env.servicesForHost = .ok [r]) (hdown : r.state = "down")
    (hvms : env.vmsOnHost = .ok vms)
    (hall : env.allServices = .ok svcs)
    (hempty : buildTargets svcs a.compute_host = []) :
    (run a env).evacCalls = [] ∧
    (vms = [] → run a env = ⟨.report [] [], []⟩) ∧
    (vms ≠ [] → run a env = ⟨.crash, []⟩) := by
  rcases vms with _ | ⟨v, rest⟩
  · have hrun : run a env = ⟨.report [] [], []⟩ := by
      simp [run, hgate, hauth, hsvc, hdown, hvms, hall, hempty, loopVMs]
    simp [hrun]
  · have hrun : run a env = ⟨.crash, []⟩ := by
      simp [run, hgate, hauth, hsvc, hdown, hvms, hall, hempty, loopVMs]
    simp [hrun]

/-- C3 witness: instantiation of the amended statement at the two concrete
empty-pool environments, with zero and with one listed VM. -/
theorem c3_witness :
    ((run ⟨"h1", "DOWN", "HARD", false, 10⟩ envC3no).evacCalls = [] ∧
      (([] : List String) = [] →
        run ⟨"h1", "DOWN", "HARD", false, 10⟩ envC3no = ⟨.report [] [], []⟩) ∧
      (([] : List String) ≠ [] →
        run ⟨"h1", "DOWN", "HARD", false, 10⟩ envC3no = ⟨.crash, []⟩)) ∧
    ((run ⟨"h1", "DOWN", "HARD", false, 10⟩ envC3one).evacCalls = [] ∧
      ((["vm-a"] : List String) = [] →
        run ⟨"h1", "DOWN", "HARD", false, 10⟩ envC3one = ⟨.report [] [], []⟩) ∧
      ((["vm-a"] : List String) ≠ [] →
        run ⟨"h1", "DOWN", "HARD", false, 10⟩ envC3one = ⟨.crash, []⟩)) :=
  ⟨c3_empty_pool_behavior ⟨"h1", "DOWN", "HARD", false, 10⟩ envC3no
      ⟨"nova-compute", "h1", "down"⟩ [] [⟨"nova-compute", "h1", "down"⟩]
      rfl rfl rfl rfl rfl rfl rfl,
   c3_empty_pool_behavior ⟨"h1", "DOWN", "HARD", false, 10⟩ envC3one
      ⟨"nova-compute", "h1", "down"⟩ ["vm-a"] [⟨"nova-compute", "h1", "down"⟩]
      rfl rfl rfl rfl rfl rfl rfl⟩

/-- C7: if some status poll made strictly before the wait timeout elapses
(polls run at t = 0, 3, 6, ...) reads ACTIVE, and the polls before it
returned a record at all, the recorded outcome is a success paired with the
chosen target host. -/
theorem c7_poll_active_before_timeout (fetch : Nat → Except String (List String))
    (timeout : Nat) (name target : String) (k : Nat)
    (hk : 3 * k < timeout)
    (hpre : ∀ j, j < k → ∃ s rest, fetch (3 * j) = .ok (s :: rest))
    (hact : ∃ rest, fetch (3 * k) = .ok ("ACTIVE" :: rest)) :
    evacuateOne (.ok ()) fetch timeout name target = ([(name, target)], []) := by
  have hkn : k < (timeout + 2) / 3 := by omega
  have hfound := pollGrid_found fetch k ((timeout + 2) / 3) 0 hkn
    (by simpa using hpre) (by simpa using hact)
  simp [evacuateOne, pollFrom, hfound]

/-- C7 witness: status BUILD at t = 0, 3, 6 and ACTIVE from t = 9, with the
9-second poll still inside the 10-second window: success on target h2. -/
theorem c7_witness :
    evacuateOne (.ok ()) (fun t => .ok [if 9 ≤ t then "ACTIVE" else "BUILD"])
        10 "vm-a" "h2" = ([("vm-a", "h2")], []) :=
  c7_poll_active_before_timeout _ 10 "vm-a" "h2" 3 (by omega)
    (fun j _ => ⟨if 9 ≤ 3 * j then "ACTIVE" else "BUILD", [], rfl⟩)
    ⟨[], by simp⟩

/-- C8 counterexample: a VM that never reads ACTIVE is recorded as a failure,
but with the reason string of the code, which differs from the reason string
the claim quotes. -/
theorem c8_reason_string_counterexample :
    evacuateOne (.ok ()) (fun _ => .ok ["BUILD"]) 10 "vm-a" "h2"
        = ([], [("vm-a", manualMigrationMsg)]) ∧
    manualMigrationMsg ≠ specTimeoutMsg ∧
    evacuateOne (.ok ()) (fun _ => .ok ["BUILD"]) 10 "vm-a" "h2"
        ≠ ([], [("vm-a", specTimeoutMsg)]) :=
  ⟨rfl, by decide, by decide⟩

/-- C8 amended: if every status poll, the final post-timeout fetch included,
returns a record whose status is not ACTIVE, the recorded outcome is a
failure whose reason is the code string
`VM is in ERROR or UNKNOWN status, needs manual migration`. -/
theorem c8_timeout_failure_code_reason (fetch : Nat → Except String (List String))
    (timeout : Nat) (name target : String)
    (hne : ∀ k, 3 * k ≤ timeout + 2 →
      ∃ s rest, fetch (3 * k) = .ok (s :: rest) ∧ s ≠ "ACTIVE") :
    evacuateOne (.ok ()) fetch timeout name target =
      ([], [(name, manualMigrationMsg)]) := by
  obtain ⟨s, hpoll, hs⟩ := pollGrid_notActive fetch ((timeout + 2) / 3) 0
    (fun j hj => by
      have h3 : 3 * j ≤ timeout + 2 := by omega
      simpa using hne j h3)
  simp [evacuateOne, pollFrom, hpoll, hs]

/-- C8 witness: a VM stuck in BUILD for a 7-second window is recorded as a
failure with the manual-migration reason of the code. -/
theorem c8_witness :
    evacuateOne (.ok ()) (fun _ => .ok ["BUILD", "ACTIVE"]) 7 "vm-b" "h3" =
      ([], [("vm-b", manualMigrationMsg)]) :=
  c8_timeout_failure_code_reason _ 7 "vm-b" "h3"
    (fun _ _ => ⟨"BUILD", ["ACTIVE"], rfl, by decide⟩)

/-- C9: a raised evacuate call, a raised status query, or a status query
returning no record each becomes a recorded failure carrying the error text,
and with a non-empty target pool the per-VM loop never crashes and reaches
every listed instance. -/
theorem c9_per_instance_errors_contained :
    (∀ (fetch : Nat → Except String (List String)) (timeout : Nat)
        (name target e : String),
      evacuateOne (.error e) fetch timeout name target = ([], [(name, e)])) ∧
    (∀ (fetch : Nat → Except String (List String)) (timeout : Nat)
        (name target e : String) (k : Nat),
      3 * k ≤ timeout + 2 →
      (∀ j, j < k → ∃ s rest, fetch (3 * j) = .ok (s :: rest) ∧ s ≠ "ACTIVE") →
      fetch (3 * k) = .error e →
      evacuateOne (.ok ()) fetch timeout name target = ([], [(name, e)])) ∧
    (∀ (fetch : Nat → Except String (List String)) (timeout : Nat)
        (name target : String) (k : Nat),
      3 * k ≤ timeout + 2 →
      (∀ j, j < k → ∃ s rest, fetch (3 * j) = .ok (s :: rest) ∧ s ≠ "ACTIVE") →
      fetch (3 * k) = .ok [] →
      evacuateOne (.ok ()) fetch timeout name target =
        ([], [(name, pyIndexErrorMsg)])) ∧
    (∀ (env : Env) (timeout : Nat) (targets vms : List String) (i : Nat),
      targets ≠ [] →
      (loopVMs env timeout targets vms i).crashed = false ∧
      (loopVMs env timeout targets vms i).evacCalls.length = vms.length) := by
  refine ⟨?_, ?_, ?_, ?_⟩
  · intro fetch timeout name target e
    simp [evacuateOne]
  · intro fetch timeout name target e k hk hpre hr
    have hkn : k ≤ (timeout + 2) / 3 := by omega
    have hexn := pollGrid_exn fetch k ((timeout + 2) / 3) 0 e hkn
      (by simpa using hpre) (by simpa using hr)
    simp [evacuateOne, pollFrom, hexn]
  · intro fetch timeout name target k hk hpre hr
    have hkn : k ≤ (timeout + 2) / 3 := by omega
    rcases pollGrid_empty fetch k ((timeout + 2) / 3) 0 hkn
      (by simpa using hpre) (by simpa using hr) with h | h <;>
      simp [evacuateOne, pollFrom, h]
  · intro env timeout targets vms i h
    exact loopVMs_no_crash env timeout targets h vms i

/-- C9 witness: a failed evacuate call, a raised status query, and an empty
status query each yield one failure entry, and a two-VM loop over a singleton
pool issues two calls without crashing. -/
theorem c9_witness :
    evacuateOne (.error "boom") (fun _ => .ok ["ACTIVE"]) 10 "vm-a" "h2" =
        ([], [("vm-a", "boom")]) ∧
    evacuateOne (.ok ()) (fun _ => .error "connection reset") 10 "vm-a" "h2" =
        ([], [("vm-a", "connection reset")]) ∧
    evacuateOne (.ok ()) (fun _ => .ok []) 10 "vm-a" "h2" =
        ([], [("vm-a", pyIndexErrorMsg)]) ∧
    ((loopVMs demoEnv 10 ["h2"] ["vm-a", "vm-b"] 0).crashed = false ∧
      (loopVMs demoEnv 10 ["h2"] ["vm-a", "vm-b"] 0).evacCalls.length =
        (["vm-a", "vm-b"] : List String).length) :=
  ⟨c9_per_instance_errors_contained.1 (fun _ => .ok ["ACTIVE"]) 10 "vm-a" "h2" "boom",
   c9_per_instance_errors_contained.2.1 (fun _ => .error "connection reset") 10
     "vm-a" "h2" "connection reset" 0 (by omega)
     (fun j hj => absurd hj (Nat.not_lt_zero j)) rfl,
   c9_per_instance_errors_contained.2.2.1 (fun _ => .ok []) 10 "vm-a" "h2" 0
     (by omega) (fun j hj => absurd hj (Nat.not_lt_zero j)) rfl,
   c9_per_instance_errors_contained.2.2.2 demoEnv 10 ["h2"] ["vm-a", "vm-b"] 0
     (by decide)⟩

end NovaEvacuate
